import Mathlib

/-!
Verification development for `download_vid.py`, a CLI shim around the
yt-dlp media-download library.  The original logic of the program is the
`VideoDownloader` class: platform normalization, input validation,
construction of the yt-dlp options dictionary, and computation of the
final output path.  This file gives a shallow embedding of that logic,
together with models of the small slice of the Python standard library
the class uses (`str.lower`, substring containment, `pathlib.PurePath`
construction / join / `str`, `os.path.splitext`, `Path.mkdir`).
-/

/-! ## Python standard library models -/

/-- Model of Python truthiness for an optional string argument:
`None` and the empty string are falsy, every other string is truthy. -/
def truthy : Option String → Bool
  | none => false
  | some s => !(s = "")

/-- Model of the Python idiom `x or d` on an optional string `x`:
yields `d` when `x` is `None` or empty, the string itself otherwise. -/
def pyOr (x : Option String) (d : String) : String :=
  match x with
  | none => d
  | some s => if s = "" then d else s

/-- Model of Python `str.lower` (ASCII, which covers every string the
program compares): lowercase each character. -/
def pyLower (s : String) : String :=
  String.mk (s.data.map Char.toLower)

/-- Decide whether the first list is a prefix of the second. -/
def leadsWith : List Char → List Char → Bool
  | [], _ => true
  | _ :: _, [] => false
  | a :: as, b :: bs => a = b && leadsWith as bs

/-- Model of Python `str.startswith`. -/
def pyStartsWith (s pre : String) : Bool :=
  leadsWith pre.data s.data

/-- Occurrence of `needle` anywhere in the haystack. -/
def containsSub (needle : List Char) : List Char → Bool
  | [] => needle.isEmpty
  | c :: t => leadsWith needle (c :: t) || containsSub needle t

/-- Model of Python substring containment `sub in s`. -/
def strContains (s sub : String) : Bool :=
  containsSub sub.data s.data

/-- Accumulating split of a character list at a separator character. -/
def splitOnCharAux (sep : Char) : List Char → List Char → List String
  | [], acc => [String.mk acc.reverse]
  | c :: t, acc =>
      if c = sep then String.mk acc.reverse :: splitOnCharAux sep t []
      else splitOnCharAux sep t (c :: acc)

/-- Model of Python `str.split(sep)` for a one-character separator. -/
def splitOnChar (s : String) (sep : Char) : List String :=
  splitOnCharAux sep s.data []

/-- Digit accumulator for decimal parsing. -/
def digitsToNatAux : List Char → Nat → Option Nat
  | [], acc => some acc
  | c :: t, acc =>
      if c.isDigit then digitsToNatAux t (acc * 10 + (c.toNat - 48)) else none

/-- Decimal value of a nonempty digit list, `none` on a non-digit. -/
def digitsToNat : List Char → Option Nat
  | [] => none
  | c :: t => digitsToNatAux (c :: t) 0

/-- Model of Python `int(s)` on the plain decimal strings the program
feeds it (an optional sign and digits; the `ValueError` branch is
`none`). -/
def pyToInt (s : String) : Option Int :=
  match s.data with
  | '-' :: rest => (digitsToNat rest).map (fun n => -(n : Int))
  | '+' :: rest => (digitsToNat rest).map (fun n => (n : Int))
  | l => (digitsToNat l).map (fun n => (n : Int))

/-- Model of `pathlib.PurePosixPath`: an absolute flag plus the list of
normalized components (empty and `.` components are dropped by the
constructor, as pathlib does). -/
structure PurePath where
  absolute : Bool
  parts : List String
deriving DecidableEq, Repr

/-- Model of the `PurePosixPath` constructor applied to a string: the path
is absolute when the string starts with `/`, and the components are the
slash-separated pieces with empty and `.` pieces removed. -/
def parsePath (s : String) : PurePath :=
  { absolute := pyStartsWith s "/"
    parts := (splitOnChar s '/').filter (fun c => !(c = "") && !(c = ".")) }

/-- Components of a path list joined with `/` separators. -/
def joinedStr : List String → String
  | [] => ""
  | [x] => x
  | x :: y :: rest => x ++ "/" ++ joinedStr (y :: rest)

/-- Model of `str()` on a `PurePosixPath`: a leading `/` for absolute
paths, and `.` for the empty relative path. -/
def PurePath.str (p : PurePath) : String :=
  if p.absolute then "/" ++ joinedStr p.parts
  else if p.parts = [] then "." else joinedStr p.parts

/-- Model of the pathlib join `p / s`: an absolute right operand replaces
the left one, otherwise the components are concatenated. -/
def PurePath.join (p : PurePath) (s : String) : PurePath :=
  let q := parsePath s
  if q.absolute then q else { absolute := p.absolute, parts := p.parts ++ q.parts }

/-- Model of `Path.absolute()`: an already absolute path is returned
unchanged, a relative one is interpreted from the current directory. -/
def pathAbsolute (cwd : PurePath) (p : PurePath) : PurePath :=
  if p.absolute then p else { absolute := cwd.absolute, parts := cwd.parts ++ p.parts }

/-- Auxiliary scan recording the last index at which a character occurs
(`-1` when it does not occur), mirroring CPython's `str.rfind`. -/
def lastIdxAux (c : Char) : List Char → Nat → Int → Int
  | [], _, acc => acc
  | x :: xs, i, acc => lastIdxAux c xs (i + 1) (if x = c then (i : Int) else acc)

/-- Index of the last occurrence of `c` in `l`, or `-1` (as `str.rfind`). -/
def lastIdxOf (l : List Char) (c : Char) : Int :=
  lastIdxAux c l 0 (-1)

/-- Model of `os.path.splitext(s)[0]` (posixpath): cut at the last dot
that comes after the last slash, provided some non-dot character stands
between the start of the basename and that dot (so `.bashrc` keeps its
name); otherwise the string is returned whole. -/
def splitextBase (s : String) : String :=
  let l := s.data
  let sepIndex := lastIdxOf l '/'
  let dotIndex := lastIdxOf l '.'
  if sepIndex < dotIndex then
    if (((l.take dotIndex.toNat).drop (sepIndex + 1).toNat).any (fun ch => !(ch = '.'))) then
      String.mk (l.take dotIndex.toNat)
    else s
  else s

/-- Model of the Python error values the program raises: `ValueError`,
`FileNotFoundError` (and `FileExistsError`, which `mkdir` can raise). -/
inductive PyError where
  | valueError (msg : String)
  | fileNotFoundError (msg : String)
  | fileExistsError (msg : String)
deriving DecidableEq, Repr

/-- Model of the ambient process state the program touches: the current
working directory, the set of existing files (`os.path.isfile`) and the
set of existing directories. -/
structure Env where
  cwd : PurePath
  files : List String
  dirs : List PurePath
deriving DecidableEq, Repr

/-- Model of `Path.mkdir(parents, exist_ok)`: with `exist_ok` an existing
directory is left alone, otherwise it is an error; with `parents` every
missing ancestor is created along with the directory itself. -/
def mkdirModel (env : Env) (p : PurePath) (parents exist_ok : Bool) : Except PyError Env :=
  if p ∈ env.dirs then
    if exist_ok then .ok env
    else .error (.fileExistsError ("File exists: " ++ p.str))
  else if parents then
    .ok { env with dirs :=
      ((List.range (p.parts.length + 1)).map
        (fun n => PurePath.mk p.absolute (p.parts.take n))) ++ env.dirs }
  else
    if PurePath.mk p.absolute (p.parts.dropLast) ∈ env.dirs then
      .ok { env with dirs := p :: env.dirs }
    else .error (.fileNotFoundError ("No such file or directory: " ++ p.str))

/-- Bool view of success of an `Except` computation. -/
def isOkB {ε α : Type} : Except ε α → Bool
  | .ok _ => true
  | .error _ => false

/-! ## The `VideoDownloader` class -/

/-- The `VideoDownloader.PLATFORMS` class attribute: supported platform
names mapped to their known domains (`x` is an alias for `twitter`). -/
def PLATFORMS : List (String × List String) :=
  [("youtube", ["youtube.com", "youtu.be"]),
   ("instagram", ["instagram.com"]),
   ("twitter", ["twitter.com", "x.com"]),
   ("x", ["twitter.com", "x.com"])]

/-- The `VideoDownloader.QUALITY_OPTIONS` class attribute. -/
def QUALITY_OPTIONS : List String := ["360", "480", "720", "1080", "best"]

/-- Dictionary lookup `PLATFORMS[p]` (and the membership test
`p in PLATFORMS` via `isSome`). -/
def lookupPlatform (p : String) : Option (List String) :=
  (PLATFORMS.find? (fun kv => kv.1 = p)).map Prod.snd

/-- The helper `VideoDownloader._normalize_platform`: lowercase the
platform name and map the alias `x` to `twitter`. -/
def normalizePlatform (platform : String) : String :=
  let platform_lower := pyLower platform
  if platform_lower = "x" then "twitter" else platform_lower

/-- The validated state of a `VideoDownloader` instance: the fields set
by `__init__` (platform already normalized, quality and output directory
already defaulted). -/
structure VideoDownloader where
  platform : String
  link : String
  quality : String
  output_dir : PurePath
  audio_only : Bool
  filename : Option String
  cookies : Option String
  format : Option String
deriving DecidableEq, Repr

/-- The field assignments of `VideoDownloader.__init__` (before
`_validate_inputs` and the `mkdir` call): `platform` is normalized by
`_normalize_platform`, `quality` defaults to `"best"`, `output_dir`
defaults to the current working directory. -/
def buildConfig (env : Env) (platform link : String) (quality output_dir : Option String)
    (audio_only : Bool) (filename cookies format : Option String) : VideoDownloader :=
  { platform := normalizePlatform platform
    link := link
    quality := pyOr quality "best"
    output_dir :=
      match output_dir with
      | none => env.cwd
      | some s => if s = "" then env.cwd else parsePath s
    audio_only := audio_only
    filename := filename
    cookies := cookies
    format := format }

/-- The warning list of the platform/URL consistency check inside
`_validate_inputs`: empty when some known domain of the platform occurs
in the lowercased URL, otherwise one warning line. -/
def urlPlatformWarnings (d : VideoDownloader) (platform_domains : List String) : List String :=
  if platform_domains.any (fun dom => strContains (pyLower d.link) dom) then []
  else ["Warning: URL '" ++ d.link ++ "' may not match platform '" ++ d.platform ++ "'"]

/-- The method `VideoDownloader._validate_inputs`, checking in order:
platform membership, URL scheme, platform/domain consistency (warning
only), quality membership, cookie file existence.  Returns the warning
lines printed on the successful path. -/
def validateInputs (env : Env) (d : VideoDownloader) : Except PyError (List String) :=
  match lookupPlatform d.platform with
  | none =>
      .error (.valueError ("Invalid platform '" ++ d.platform ++ "'. Supported platforms: "
        ++ String.intercalate ", " ((PLATFORMS.map Prod.fst).filter (fun p => !(p = "x")))))
  | some platform_domains =>
      if !(pyStartsWith d.link "http://" || pyStartsWith d.link "https://") then
        .error (.valueError ("Invalid URL format: " ++ d.link))
      else
        let warnings := urlPlatformWarnings d platform_domains
        if !(d.quality ∈ QUALITY_OPTIONS) then
          .error (.valueError ("Invalid quality '" ++ d.quality ++ "'. Supported qualities: "
            ++ String.intercalate ", " QUALITY_OPTIONS))
        else
          match d.cookies with
          | some c =>
              if !(c = "") && !(c ∈ env.files) then
                .error (.fileNotFoundError ("Cookies file not found: " ++ c))
              else .ok warnings
          | none => .ok warnings

/-- The whole of `VideoDownloader.__init__`: build the fields, run
`_validate_inputs`, then `self.output_dir.mkdir(parents=True,
exist_ok=True)`.  Returns the instance, the updated filesystem state and
the warnings printed. -/
def initDownloader (env : Env) (platform link : String) (quality output_dir : Option String)
    (audio_only : Bool) (filename cookies format : Option String) :
    Except PyError (VideoDownloader × Env × List String) :=
  let d := buildConfig env platform link quality output_dir audio_only filename cookies format
  match validateInputs env d with
  | .error e => .error e
  | .ok warnings =>
      match mkdirModel env d.output_dir true true with
      | .error e => .error e
      | .ok env2 => .ok (d, env2, warnings)

/-- The method `VideoDownloader._get_quality_format_selector`: audio-only
requests `bestaudio/best`; quality `best` requests
`bestvideo+bestaudio/best`; a numeric quality requests the best streams
of height at most the target with a final unrestricted `best` fallback.
(Python's `int()` on the validated quality strings is `String.toInt?`.) -/
def getQualityFormatSelector (d : VideoDownloader) : String :=
  if d.audio_only then "bestaudio/best"
  else if d.quality = "best" then "bestvideo+bestaudio/best"
  else
    match pyToInt d.quality with
    | none => "bestvideo+bestaudio/best"
    | some target_height =>
        "bestvideo[height<=" ++ toString target_height ++ "]+bestaudio/best[height<="
          ++ toString target_height ++ "]/best"

/-- The method `VideoDownloader._get_output_template`: a truthy custom
filename is stripped of its extension and suffixed with the `%(ext)s`
placeholder (the audio and video branches of the source are identical);
otherwise the default `%(title)s.%(ext)s` template is used.  Either
template is joined onto the output directory and rendered with `str()`. -/
def getOutputTemplate (d : VideoDownloader) : String :=
  if truthy d.filename then
    let base_name := splitextBase ((d.filename).getD "")
    (d.output_dir.join (base_name ++ ".%(ext)s")).str
  else
    (d.output_dir.join "%(title)s.%(ext)s").str

/-- One yt-dlp post-processor dictionary, as built by `_get_ydl_opts`. -/
structure PostProcessor where
  key : String
  preferredcodec : String
  preferredquality : String
deriving DecidableEq, Repr

/-- The yt-dlp options dictionary built by `_get_ydl_opts`.  The
`progress_hooks` entry holds a function value and is omitted from the
model; absent optional keys are `none`. -/
structure YdlOpts where
  format : String
  outtmpl : String
  quiet : Bool
  no_warnings : Bool
  cookiefile : Option String
  postprocessors : Option (List PostProcessor)
  merge_output_format : Option String
deriving DecidableEq, Repr

/-- The method `VideoDownloader._get_ydl_opts`: base options from the
format selector and output template; a cookie file when set; for
audio-only an `FFmpegExtractAudio` post-processor with the requested (or
default `mp3`) codec at quality `192` and, without a custom filename,
the default output template; for video the `merge_output_format` key
when a format was requested. -/
def getYdlOpts (d : VideoDownloader) : YdlOpts :=
  let base : YdlOpts :=
    { format := getQualityFormatSelector d
      outtmpl := getOutputTemplate d
      quiet := false
      no_warnings := false
      cookiefile := if truthy d.cookies then d.cookies else none
      postprocessors := none
      merge_output_format := none }
  if d.audio_only then
    let audio_codec := pyOr d.format "mp3"
    let pp : PostProcessor :=
      { key := "FFmpegExtractAudio", preferredcodec := audio_codec, preferredquality := "192" }
    let withPP := { base with postprocessors := some [pp] }
    if truthy d.filename then withPP
    else { withPP with outtmpl := (d.output_dir.join "%(title)s.%(ext)s").str }
  else
    if truthy d.format then { base with merge_output_format := d.format }
    else base

/-- The final-path computation at the end of `VideoDownloader.download`
(after a successful library call): with a truthy custom filename the
path is the output directory joined with the stripped filename plus the
chosen extension (explicit format first, else the metadata extension
defaulting to `mp4`, or `mp3` for audio); otherwise it is derived from
the filename the library predicts (`prepare_filename`), with the
extension replaced for audio mode or an explicit format.  The result is
made absolute against the working directory. -/
def downloadFinalPath (env : Env) (d : VideoDownloader) (infoExt : Option String)
    (preparedFilename : String) : String :=
  if truthy d.filename then
    let base_name := splitextBase ((d.filename).getD "")
    let ext := if d.audio_only then pyOr d.format "mp3"
               else pyOr d.format (infoExt.getD "mp4")
    let final_filename := base_name ++ "." ++ ext
    (pathAbsolute env.cwd (d.output_dir.join final_filename)).str
  else
    if d.audio_only then
      let base := splitextBase preparedFilename
      let ext := pyOr d.format "mp3"
      (pathAbsolute env.cwd (parsePath (base ++ "." ++ ext))).str
    else
      if truthy d.format then
        let base := splitextBase preparedFilename
        (pathAbsolute env.cwd (parsePath (base ++ "." ++ (d.format).getD ""))).str
      else
        (pathAbsolute env.cwd (parsePath preparedFilename)).str

/-! ## Shared concrete inputs for the claim instances -/

/-- A concrete ambient state used by the concrete claim instances. -/
def defaultEnv : Env :=
  { cwd := parsePath "/home/user", files := ["cookies.txt"], dirs := [] }

/-- The end-to-end scenario configuration of the spec: platform
`youtube`, the sample watch URL, quality `best`, output `./out`, video
mode, no optional arguments. -/
def cfgC1 : VideoDownloader :=
  buildConfig defaultEnv "youtube" "https://youtube.com/watch?v=abc"
    (some "best") (some "./out") false none none none

/-- A validated configuration with quality `720` in video mode. -/
def cfg720 : VideoDownloader :=
  buildConfig defaultEnv "youtube" "https://youtube.com/v" (some "720") none false none none none

/-- A validated audio-only configuration with no explicit format. -/
def cfgAudio : VideoDownloader :=
  buildConfig defaultEnv "youtube" "https://youtube.com/v" none none true none none none

/-- The audio-only configuration `cfgAudio` with a different quality. -/
def cfgAudio360 : VideoDownloader :=
  buildConfig defaultEnv "youtube" "https://youtube.com/v" (some "360") none true none none none

/-- A video-mode configuration with custom filename `clip` and format `webm`. -/
def cfgClip : VideoDownloader :=
  buildConfig defaultEnv "youtube" "https://youtube.com/v" none none false
    (some "clip") none (some "webm")

/-! ## Helper lemmas -/

/-- String append is associative (componentwise list append). -/
theorem strAppend_assoc (a b c : String) : a ++ b ++ c = a ++ (b ++ c) := by
  cases a with
  | mk la =>
      cases b with
      | mk lb =>
          cases c with
          | mk lc =>
              show String.mk (la ++ lb ++ lc) = String.mk (la ++ (lb ++ lc))
              rw [List.append_assoc]

/-- Joining a component list that ends in `y` yields a string that ends
in `y`. -/
theorem joinedStr_append_last (y : String) (xs : List String) :
    ∃ pre, joinedStr (xs ++ [y]) = pre ++ y := by
  induction xs with
  | nil =>
      refine ⟨"", ?_⟩
      show joinedStr [y] = "" ++ y
      rfl
  | cons x xs ih =>
      obtain ⟨pre, hp⟩ := ih
      cases hxz : xs ++ [y] with
      | nil => simp at hxz
      | cons z rest =>
          refine ⟨x ++ "/" ++ pre, ?_⟩
          have hstep : joinedStr ((x :: xs) ++ [y]) = x ++ "/" ++ joinedStr (xs ++ [y]) := by
            rw [List.cons_append, hxz]
            rfl
          rw [hstep, hp, ← strAppend_assoc]

/-- The rendered string of a path whose last component is `y` ends in `y`. -/
theorem purePathStr_append_last (b : Bool) (xs : List String) (y : String) :
    ∃ pre, (PurePath.mk b (xs ++ [y])).str = pre ++ y := by
  obtain ⟨pre, hp⟩ := joinedStr_append_last y xs
  cases b with
  | false =>
      refine ⟨pre, ?_⟩
      have hne : ¬ (xs ++ [y] = ([] : List String)) := by simp
      simp [PurePath.str, hne, hp]
  | true =>
      refine ⟨"/" ++ pre, ?_⟩
      simp [PurePath.str, hp, strAppend_assoc]

/-- `mkdir(parents=True, exist_ok=True)` always succeeds, leaves every
existing directory in place and makes the requested directory exist. -/
theorem mkdirModel_true_true_ok (env : Env) (p : PurePath) :
    ∃ env2, mkdirModel env p true true = .ok env2
      ∧ p ∈ env2.dirs ∧ ∀ q ∈ env.dirs, q ∈ env2.dirs := by
  by_cases hmem : p ∈ env.dirs
  · refine ⟨env, ?_, hmem, fun q hq => hq⟩
    simp [mkdirModel, hmem]
  · refine ⟨{ env with dirs :=
        ((List.range (p.parts.length + 1)).map
          (fun n => PurePath.mk p.absolute (p.parts.take n))) ++ env.dirs }, ?_, ?_, ?_⟩
    · simp [mkdirModel, hmem]
    · refine List.mem_append.mpr (Or.inl ?_)
      refine List.mem_map.mpr ⟨p.parts.length, ?_, ?_⟩
      · simp
      · rw [List.take_length]
    · intro q hq
      exact List.mem_append.mpr (Or.inr hq)

/-- A validation failure makes `__init__` fail with the same error. -/
theorem initDownloader_error_of_validate (env : Env) (platform link : String)
    (quality output_dir : Option String) (audio_only : Bool)
    (filename cookies format : Option String) (e : PyError)
    (hv : validateInputs env
        (buildConfig env platform link quality output_dir audio_only filename cookies format)
      = .error e) :
    initDownloader env platform link quality output_dir audio_only filename cookies format
      = .error e := by
  simp only [initDownloader, hv]

/-- A validation success followed by a `mkdir` success makes `__init__`
return the built instance, the new state and the warnings. -/
theorem initDownloader_ok_of_validate (env : Env) (platform link : String)
    (quality output_dir : Option String) (audio_only : Bool)
    (filename cookies format : Option String) (ws : List String) (env2 : Env)
    (hv : validateInputs env
        (buildConfig env platform link quality output_dir audio_only filename cookies format)
      = .ok ws)
    (hm : mkdirModel env
        (buildConfig env platform link quality output_dir audio_only filename cookies format).output_dir
        true true = .ok env2) :
    initDownloader env platform link quality output_dir audio_only filename cookies format
      = .ok (buildConfig env platform link quality output_dir audio_only filename cookies format,
        env2, ws) := by
  simp only [initDownloader, hv, hm]

/-! ## Claims -/

/-- C1 (counterexample): in the end-to-end scenario (platform `youtube`,
the sample watch URL, quality `best`, output directory `./out`, video
mode) the options dictionary's output template is
`out/%(title)s.%(ext)s`, not `./out/%(title)s.%(ext)s` as claimed:
pathlib normalizes the leading `./` away when the template is rendered. -/
theorem C1_template_counterexample :
    (getYdlOpts cfgC1).outtmpl = "out/%(title)s.%(ext)s"
    ∧ ¬ ((getYdlOpts cfgC1).outtmpl = "./out/%(title)s.%(ext)s") := by
  constructor
  · rfl
  · decide

/-- C1 (amended): in the end-to-end scenario the options dictionary has
format selector `bestvideo+bestaudio/best`, output template
`out/%(title)s.%(ext)s` (the `./` of the configured output directory is
normalized away by pathlib) and no post-processor list, and the
construction of the configuration succeeds. -/
theorem C1_scenario_option_dict :
    (getYdlOpts cfgC1).format = "bestvideo+bestaudio/best"
    ∧ (getYdlOpts cfgC1).outtmpl = "out/%(title)s.%(ext)s"
    ∧ (getYdlOpts cfgC1).postprocessors = none
    ∧ isOkB (initDownloader defaultEnv "youtube" "https://youtube.com/watch?v=abc"
        (some "best") (some "./out") false none none none) = true := by
  refine ⟨rfl, rfl, rfl, ?_⟩
  decide

/-- C2: for a configuration with quality `720` in video mode, the format
selector is exactly `bestvideo[height<=720]+bestaudio/best[height<=720]/best`;
its first alternative asks for the best video of height at most 720 plus
best audio, and its final fallback alternative is the unrestricted `best`. -/
theorem C2_quality720_selector (d : VideoDownloader)
    (haudio : d.audio_only = false) (hq : d.quality = "720") :
    getQualityFormatSelector d = "bestvideo[height<=720]+bestaudio/best[height<=720]/best"
    ∧ (splitOnChar (getQualityFormatSelector d) '/').head? = some "bestvideo[height<=720]+bestaudio"
    ∧ (splitOnChar (getQualityFormatSelector d) '/').getLast? = some "best" := by
  have hsel : getQualityFormatSelector d
      = "bestvideo[height<=720]+bestaudio/best[height<=720]/best" := by
    unfold getQualityFormatSelector
    rw [haudio, hq]
    rfl
  refine ⟨hsel, ?_, ?_⟩ <;> rw [hsel] <;> rfl

/-- C2 witness: the concrete configuration `cfg720`. -/
theorem C2_quality720_selector_witness :
    getQualityFormatSelector cfg720 = "bestvideo[height<=720]+bestaudio/best[height<=720]/best"
    ∧ (splitOnChar (getQualityFormatSelector cfg720) '/').head? = some "bestvideo[height<=720]+bestaudio"
    ∧ (splitOnChar (getQualityFormatSelector cfg720) '/').getLast? = some "best" :=
  C2_quality720_selector cfg720 rfl rfl

/-- C4: for every audio-only configuration with no explicit format, the
options dictionary contains exactly one post-processor entry, the
`FFmpegExtractAudio` step with preferred codec `mp3` and preferred
quality `192`. -/
theorem C4_audio_postprocessor_mp3_192 (d : VideoDownloader)
    (ha : d.audio_only = true) (hf : d.format = none) :
    (getYdlOpts d).postprocessors
      = some [{ key := "FFmpegExtractAudio", preferredcodec := "mp3",
                preferredquality := "192" }] := by
  cases hfn : truthy d.filename <;> simp [getYdlOpts, ha, hf, hfn, pyOr]

/-- C4 witness: the concrete audio-only configuration `cfgAudio`. -/
theorem C4_audio_postprocessor_mp3_192_witness :
    (getYdlOpts cfgAudio).postprocessors
      = some [{ key := "FFmpegExtractAudio", preferredcodec := "mp3",
                preferredquality := "192" }] :=
  C4_audio_postprocessor_mp3_192 cfgAudio rfl rfl

/-- C10: the format selector of every audio-only configuration is
`bestaudio/best`; in particular two audio-only configurations that
differ only in quality produce identical selectors, so the quality
parameter has no influence on stream selection in audio-only mode. -/
theorem C10_audio_selector_quality_independent (c1 c2 : VideoDownloader)
    (h1 : c1.audio_only = true) (h2 : c2.audio_only = true) :
    getQualityFormatSelector c1 = "bestaudio/best"
    ∧ getQualityFormatSelector c1 = getQualityFormatSelector c2 := by
  have e1 : getQualityFormatSelector c1 = "bestaudio/best" := by
    simp [getQualityFormatSelector, h1]
  have e2 : getQualityFormatSelector c2 = "bestaudio/best" := by
    simp [getQualityFormatSelector, h2]
  exact ⟨e1, e1.trans e2.symm⟩

/-- C10 witness: the audio-only configurations `cfgAudio` (quality
`best`) and `cfgAudio360` (quality `360`). -/
theorem C10_audio_selector_quality_independent_witness :
    getQualityFormatSelector cfgAudio = "bestaudio/best"
    ∧ getQualityFormatSelector cfgAudio = getQualityFormatSelector cfgAudio360 :=
  C10_audio_selector_quality_independent cfgAudio cfgAudio360 rfl rfl

/-- C3: whenever the normalized platform name is not one of the
recognized keys, `__init__` fails with a `ValueError` whose message
contains the invalid (normalized) platform name, whatever the other
arguments are. -/
theorem C3_invalid_platform_error (env : Env) (platform link : String)
    (quality output_dir : Option String) (audio_only : Bool)
    (filename cookies format : Option String)
    (h : normalizePlatform platform ∉ (["youtube", "instagram", "twitter", "x"] : List String)) :
    ∃ msg pre post,
      initDownloader env platform link quality output_dir audio_only filename cookies format
        = .error (.valueError msg)
      ∧ msg = pre ++ normalizePlatform platform ++ post := by
  have hl : lookupPlatform (normalizePlatform platform) = none := by
    unfold lookupPlatform
    cases hf : PLATFORMS.find? (fun kv => kv.1 = normalizePlatform platform) with
    | none => rfl
    | some kv =>
        exfalso
        have hkv : kv.1 = normalizePlatform platform := by
          have hpb := List.find?_some hf
          simpa using hpb
        have hmem : kv ∈ PLATFORMS := List.mem_of_find?_eq_some hf
        have hkeys : kv.1 ∈ (["youtube", "instagram", "twitter", "x"] : List String) := by
          simp only [PLATFORMS, List.mem_cons, List.not_mem_nil, or_false] at hmem
          rcases hmem with rfl | rfl | rfl | rfl <;> simp
        rw [hkv] at hkeys
        exact h hkeys
  have hv : validateInputs env
      (buildConfig env platform link quality output_dir audio_only filename cookies format)
      = .error (.valueError ("Invalid platform '" ++ normalizePlatform platform
          ++ "'. Supported platforms: "
          ++ String.intercalate ", " ((PLATFORMS.map Prod.fst).filter (fun p => !(p = "x"))))) := by
    have hp : (buildConfig env platform link quality output_dir audio_only filename cookies
        format).platform = normalizePlatform platform := rfl
    unfold validateInputs
    rw [hp, hl]
  refine ⟨_, "Invalid platform '",
    "'. Supported platforms: "
      ++ String.intercalate ", " ((PLATFORMS.map Prod.fst).filter (fun p => !(p = "x"))),
    initDownloader_error_of_validate env platform link quality output_dir audio_only
      filename cookies format _ hv, ?_⟩
  exact strAppend_assoc ("Invalid platform '" ++ normalizePlatform platform) _ _

/-- C3 witness: the unsupported platform `FaceBook`. -/
theorem C3_invalid_platform_error_witness :
    ∃ msg pre post,
      initDownloader defaultEnv "FaceBook" "https://facebook.com/v" none none false none none none
        = .error (.valueError msg)
      ∧ msg = pre ++ normalizePlatform "FaceBook" ++ post :=
  C3_invalid_platform_error defaultEnv "FaceBook" "https://facebook.com/v" none none false
    none none none (by decide)

/-- C7: whenever the URL starts with neither `http://` nor `https://`,
`__init__` fails with a `ValueError` (either the platform error or the
URL-format error, both of which precede every other effect). -/
theorem C7_invalid_url_scheme_error (env : Env) (platform link : String)
    (quality output_dir : Option String) (audio_only : Bool)
    (filename cookies format : Option String)
    (h : (pyStartsWith link "http://" || pyStartsWith link "https://") = false) :
    ∃ msg, initDownloader env platform link quality output_dir audio_only filename cookies format
      = .error (.valueError msg) := by
  obtain ⟨msg, hv⟩ : ∃ msg,
      validateInputs env
        (buildConfig env platform link quality output_dir audio_only filename cookies format)
        = .error (.valueError msg) := by
    unfold validateInputs
    cases hl : lookupPlatform (buildConfig env platform link quality output_dir audio_only
        filename cookies format).platform with
    | none => exact ⟨_, rfl⟩
    | some platform_domains =>
        have hld : (buildConfig env platform link quality output_dir audio_only filename cookies
            format).link = link := rfl
        rw [hld, h]
        exact ⟨_, rfl⟩
  exact ⟨msg, initDownloader_error_of_validate env platform link quality output_dir audio_only
    filename cookies format _ hv⟩

/-- C7 witness: the scheme-less URL `youtube.com/watch`. -/
theorem C7_invalid_url_scheme_error_witness :
    ∃ msg, initDownloader defaultEnv "youtube" "youtube.com/watch" none none false none none none
      = .error (.valueError msg) :=
  C7_invalid_url_scheme_error defaultEnv "youtube" "youtube.com/watch" none none false
    none none none (by decide)

/-- C6: whenever construction with platform `x` succeeds, the platform
stored on the returned instance is `twitter`. -/
theorem C6_platform_x_normalized_twitter (env : Env) (link : String)
    (quality output_dir : Option String) (audio_only : Bool)
    (filename cookies format : Option String) (t : VideoDownloader × Env × List String)
    (h : initDownloader env "x" link quality output_dir audio_only filename cookies format
      = .ok t) :
    t.1.platform = "twitter" := by
  simp only [initDownloader] at h
  split at h
  · exact absurd h (by simp)
  · split at h
    · exact absurd h (by simp)
    · rw [Except.ok.injEq] at h
      rw [← h]
      rfl

/-- C6 witness: a successful construction with platform `x`. -/
theorem C6_platform_x_normalized_twitter_witness :
    (buildConfig defaultEnv "x" "https://x.com/s" none (some "out") false none
      none none).platform = "twitter" :=
  C6_platform_x_normalized_twitter defaultEnv "https://x.com/s" none (some "out") false
    none none none _ rfl

/-- C8: a configuration with a recognized platform, an http(s) URL, a
valid quality and an absent/empty/existing cookie path constructs
successfully whatever the URL's domain is; the platform/domain check
contributes only the warning list (empty on a match, one warning line on
a mismatch), never an error. -/
theorem C8_domain_mismatch_nonfatal (env : Env) (platform link : String)
    (quality output_dir : Option String) (audio_only : Bool)
    (filename cookies format : Option String) (platform_domains : List String)
    (hplat : lookupPlatform (normalizePlatform platform) = some platform_domains)
    (hurl : (pyStartsWith link "http://" || pyStartsWith link "https://") = true)
    (hqual : pyOr quality "best" ∈ QUALITY_OPTIONS)
    (hcook : ∀ c, cookies = some c → c = "" ∨ c ∈ env.files) :
    ∃ env2,
      initDownloader env platform link quality output_dir audio_only filename cookies format
        = .ok (buildConfig env platform link quality output_dir audio_only filename cookies format,
            env2,
            urlPlatformWarnings
              (buildConfig env platform link quality output_dir audio_only filename cookies format)
              platform_domains) := by
  have hv : validateInputs env
      (buildConfig env platform link quality output_dir audio_only filename cookies format)
      = .ok (urlPlatformWarnings
          (buildConfig env platform link quality output_dir audio_only filename cookies format)
          platform_domains) := by
    have hp : (buildConfig env platform link quality output_dir audio_only filename cookies
        format).platform = normalizePlatform platform := rfl
    have hld : (buildConfig env platform link quality output_dir audio_only filename cookies
        format).link = link := rfl
    have hqd : (buildConfig env platform link quality output_dir audio_only filename cookies
        format).quality = pyOr quality "best" := rfl
    have hcd : (buildConfig env platform link quality output_dir audio_only filename cookies
        format).cookies = cookies := rfl
    have hqb : decide (pyOr quality "best" ∈ QUALITY_OPTIONS) = true := decide_eq_true hqual
    unfold validateInputs
    rw [hp, hplat, hld, hurl, hqd, hqb, hcd]
    cases hc : cookies with
    | none => rfl
    | some c =>
        rcases hcook c hc with hce | hcf
        · subst hce
          rfl
        · simp [hcf]
  obtain ⟨env2, hm, _hmem, _hpres⟩ := mkdirModel_true_true_ok env
    (buildConfig env platform link quality output_dir audio_only filename cookies
      format).output_dir
  exact ⟨env2, initDownloader_ok_of_validate env platform link quality output_dir audio_only
    filename cookies format _ env2 hv hm⟩

/-- C8 witness: platform `youtube` with the mismatching URL
`https://example.com/v` constructs successfully with one warning. -/
theorem C8_domain_mismatch_nonfatal_witness :
    ∃ env2,
      initDownloader defaultEnv "youtube" "https://example.com/v" none (some "out") false
          none none none
        = .ok (buildConfig defaultEnv "youtube" "https://example.com/v" none (some "out") false
            none none none,
            env2,
            urlPlatformWarnings
              (buildConfig defaultEnv "youtube" "https://example.com/v" none (some "out") false
                none none none)
              ["youtube.com", "youtu.be"]) :=
  C8_domain_mismatch_nonfatal defaultEnv "youtube" "https://example.com/v" none (some "out")
    false none none none ["youtube.com", "youtu.be"] rfl rfl (by decide)
    (fun c h => nomatch h)

/-- C9: whenever validation passes, construction succeeds and its
returned filesystem state contains the configured output directory
(created with parents as needed), every directory that existed before
is preserved, and a pre-existing output directory is not an error; the
directory is created by `__init__` itself, before any download. -/
theorem C9_init_creates_output_dir (env : Env) (platform link : String)
    (quality output_dir : Option String) (audio_only : Bool)
    (filename cookies format : Option String) (ws : List String)
    (hval : validateInputs env
        (buildConfig env platform link quality output_dir audio_only filename cookies format)
      = .ok ws) :
    ∃ env2,
      initDownloader env platform link quality output_dir audio_only filename cookies format
        = .ok (buildConfig env platform link quality output_dir audio_only filename cookies format,
            env2, ws)
      ∧ (buildConfig env platform link quality output_dir audio_only filename cookies
          format).output_dir ∈ env2.dirs
      ∧ ∀ q ∈ env.dirs, q ∈ env2.dirs := by
  obtain ⟨env2, hm, hmem, hpres⟩ := mkdirModel_true_true_ok env
    (buildConfig env platform link quality output_dir audio_only filename cookies
      format).output_dir
  exact ⟨env2, initDownloader_ok_of_validate env platform link quality output_dir audio_only
    filename cookies format ws env2 hval hm, hmem, hpres⟩

/-- C9 witness: a valid youtube configuration with output directory
`out`. -/
theorem C9_init_creates_output_dir_witness :
    ∃ env2,
      initDownloader defaultEnv "youtube" "https://youtube.com/v" none (some "out") false
          none none none
        = .ok (buildConfig defaultEnv "youtube" "https://youtube.com/v" none (some "out") false
            none none none, env2, [])
      ∧ (buildConfig defaultEnv "youtube" "https://youtube.com/v" none (some "out") false
          none none none).output_dir ∈ env2.dirs
      ∧ ∀ q ∈ defaultEnv.dirs, q ∈ env2.dirs :=
  C9_init_creates_output_dir defaultEnv "youtube" "https://youtube.com/v" none (some "out")
    false none none none [] rfl

/-- C5: for a configuration with custom filename `clip`, format `webm`
and video mode, the final path computed after download ends in
`clip.webm`, whatever extension the library reports in its metadata and
whatever filename it predicts. -/
theorem C5_custom_filename_final_path (env : Env) (d : VideoDownloader)
    (infoExt : Option String) (preparedFilename : String)
    (hfn : d.filename = some "clip") (hfmt : d.format = some "webm")
    (ha : d.audio_only = false) :
    ∃ pre, downloadFinalPath env d infoExt preparedFilename = pre ++ "clip.webm" := by
  have h1 : downloadFinalPath env d infoExt preparedFilename
      = (pathAbsolute env.cwd (d.output_dir.join "clip.webm")).str := by
    unfold downloadFinalPath
    rw [hfn, hfmt, ha]
    rfl
  have h2 : d.output_dir.join "clip.webm"
      = PurePath.mk d.output_dir.absolute (d.output_dir.parts ++ ["clip.webm"]) := by
    unfold PurePath.join
    rfl
  rw [h1, h2]
  cases hb : d.output_dir.absolute with
  | false =>
      have h3 : pathAbsolute env.cwd (PurePath.mk false (d.output_dir.parts ++ ["clip.webm"]))
          = PurePath.mk env.cwd.absolute
              ((env.cwd.parts ++ d.output_dir.parts) ++ ["clip.webm"]) := by
        unfold pathAbsolute
        simp [List.append_assoc]
      rw [h3]
      exact purePathStr_append_last env.cwd.absolute (env.cwd.parts ++ d.output_dir.parts)
        "clip.webm"
  | true =>
      have h3 : pathAbsolute env.cwd (PurePath.mk true (d.output_dir.parts ++ ["clip.webm"]))
          = PurePath.mk true (d.output_dir.parts ++ ["clip.webm"]) := by
        unfold pathAbsolute
        rfl
      rw [h3]
      exact purePathStr_append_last true d.output_dir.parts "clip.webm"

/-- C5 witness: the configuration `cfgClip` with a reported extension
`mkv` and a predicted filename `whatever.mp4`. -/
theorem C5_custom_filename_final_path_witness :
    ∃ pre, downloadFinalPath defaultEnv cfgClip (some "mkv") "whatever.mp4"
      = pre ++ "clip.webm" :=
  C5_custom_filename_final_path defaultEnv cfgClip (some "mkv") "whatever.mp4" rfl rfl rfl
